import Mathlib

/-!
Verification of the container/iterator layer of `nyan`
(`src/nyan/nyan_container.h`), shallowly embedded in Lean 4.

The source defines three abstractions:

* `ContainerIterBase<T>` — the abstract Iteration Cursor, with pure virtual
  `operator++`, `operator*` and a protected pure virtual `equals`, plus a
  concrete `operator==` that guards by runtime type identity (`typeid`)
  before delegating to `equals`.
* `ContainerIterator<T>` — the Iterator Handle, wrapping a
  `std::unique_ptr<ContainerIterBase<T>>`.
* `NyanContainer` — the Abstract Container, declaring pure virtual
  `size/add/contains/remove/begin/end` and concrete `cbegin/cend`.

Modelling choices:

* A cursor's dynamic type (`typeid`) is a `Nat` tag `kind`; its opaque
  container-specific position state is a `Nat` field `pos`.
* The concrete per-kind `equals` overrides are not in the source (no concrete
  container variant is); theorems about cursor comparison are parametrised
  over a family `SamePos` of per-kind position comparisons.
* A `std::unique_ptr` is an `Option (Nat × Cursor)`: `none` is the null
  pointer, and the `Nat` component is the pointee's address, so that the raw
  pointer comparison `this->iter == other.iter` is expressible.  Unique
  ownership means two distinct live handles never share an address.
* Dereferencing a null `unique_ptr` is undefined behavior in C++; operations
  that would do so return `none` (`Option Bool` results of comparison).
-/

namespace Nyan

/-- An Iteration Cursor (`ContainerIterBase`) instance: `kind` is its
dynamic concrete type (the `typeid` tag), `pos` its opaque
container-specific position state. -/
structure Cursor where
  kind : Nat
  pos : Nat
deriving DecidableEq, Repr

/-- The family of concrete `equals` overrides (the protected pure virtual
of `ContainerIterBase`, one per concrete cursor kind): given the dynamic
kind and the two position states, decide whether they are the same
container position. -/
def SamePos : Type := Nat → Nat → Nat → Bool

/-- `ContainerIterBase::operator==` (nyan_container.h lines 49-51):
`typeid(*this) == typeid(other) and this->equals(other)` — runtime type
identity guard, then delegation to the concrete position comparison. -/
def iterBaseEq (sp : SamePos) (a b : Cursor) : Bool :=
  (a.kind == b.kind) && sp a.kind a.pos b.pos

/-- The Iterator Handle `ContainerIterator`: wraps
`std::unique_ptr<ContainerIterBase> iter`, modelled as an optional
(address, pointee) pair; `none` is the null pointer of a
default-constructed handle. -/
structure ContainerIterator where
  iter : Option (Nat × Cursor)
deriving DecidableEq, Repr

/-- Raw pointer comparison of the two `unique_ptr` members
(`this->iter == other.iter`): equal iff both null or same address. -/
def ptrEq : Option (Nat × Cursor) → Option (Nat × Cursor) → Bool
  | none, none => true
  | some (a, _), some (b, _) => a == b
  | _, _ => false

/-- `ContainerIterator::operator==` (nyan_container.h lines 115-117):
`(this->iter == other.iter) or (*this->iter == *other.iter)`.
The result is `none` when the second disjunct is reached with a null
`unique_ptr` on either side: dereferencing it is undefined behavior. -/
def iterEq (sp : SamePos) (h1 h2 : ContainerIterator) : Option Bool :=
  if ptrEq h1.iter h2.iter then
    some true
  else
    match h1.iter, h2.iter with
    | some (_, c1), some (_, c2) => some (iterBaseEq sp c1 c2)
    | _, _ => none

/-- `ContainerIterator::operator!=` (nyan_container.h lines 123-125):
`not (*this == other)`; undefined exactly when `operator==` is. -/
def iterNe (sp : SamePos) (h1 h2 : ContainerIterator) : Option Bool :=
  match iterEq sp h1 h2 with
  | some b => some (!b)
  | none => none

/-- `ContainerIterator::ContainerIterator(ContainerIterator &&other)`
(nyan_container.h lines 82-84): `iter{std::move(other.iter)}` — the
`unique_ptr` move transfers the pointee (same address, no clone) and nulls
the source.  Returns the pair (newly constructed handle, state of `other`
afterwards). -/
def moveCtor (other : ContainerIterator) : ContainerIterator × ContainerIterator :=
  ({ iter := other.iter }, { iter := none })

/-- Modelled from the spec: no concrete container variant is in the source
(`NyanContainer`'s `size/add/contains/remove/begin/end` are pure virtual);
this models one variant per the Abstract Container contract of the spec,
an insertion-ordered collection of entities.  Entities are opaque
identities (`Nat`, per the spec's "any entity exposing identity and
type-aware equality"). -/
structure ModelContainer where
  elems : List Nat
deriving DecidableEq, Repr

/-- Modelled from the spec: `size() -> integer ≥ 0`, the count of contained
entities, no side effects. -/
def ModelContainer.size (c : ModelContainer) : Nat :=
  c.elems.length

/-- Modelled from the spec: `contains(entity) -> bool`, true iff an entity
equal to the argument is present (same equality notion as `add`). -/
def ModelContainer.contains (c : ModelContainer) (e : Nat) : Bool :=
  c.elems.contains e

/-- Modelled from the spec: `add(entity) -> bool`, returns true if newly
inserted, false (no-op) if an equal entity was already present.  Returns
(result, container state afterwards). -/
def ModelContainer.add (c : ModelContainer) (e : Nat) : Bool × ModelContainer :=
  if c.elems.contains e then (false, c)
  else (true, { elems := c.elems ++ [e] })

/-- Modelled from the spec: `remove(entity) -> bool`, removes one entity
equal to the argument if present, reporting whether a removal occurred;
removing an absent entity is a no-op.  Returns (result, container state
afterwards). -/
def ModelContainer.remove (c : ModelContainer) (e : Nat) : Bool × ModelContainer :=
  if c.elems.contains e then (true, { elems := c.elems.erase e })
  else (false, c)

/-- Modelled from the spec: the `typeid` tag of the model variant's concrete
cursor kind. -/
def modelKind : Nat := 7

/-- Modelled from the spec: the concrete `equals` override of the model
variant's cursor: position states are list indices, compared for equality. -/
def modelSp : SamePos := fun _ p q => p == q

/-- Modelled from the spec: the cursor at the first element. -/
def ModelContainer.beginCursor (_ : ModelContainer) : Cursor :=
  { kind := modelKind, pos := 0 }

/-- Modelled from the spec: the cursor at the canonical one-past-last
sentinel. -/
def ModelContainer.endCursor (c : ModelContainer) : Cursor :=
  { kind := modelKind, pos := c.elems.length }

/-- Modelled from the spec: `begin()`, an Iterator Handle owning a freshly
allocated cursor at the first element (address 0 in this model run). -/
def ModelContainer.beginIt (c : ModelContainer) : ContainerIterator :=
  { iter := some (0, c.beginCursor) }

/-- Modelled from the spec: `end()`, an Iterator Handle owning a freshly
allocated cursor at the one-past-last sentinel (a distinct allocation from
`begin()`'s, address 1 in this model run). -/
def ModelContainer.endIt (c : ModelContainer) : ContainerIterator :=
  { iter := some (1, c.endCursor) }

/-- Modelled from the spec: the const-qualified `begin()` overload of the
model variant (returns the same position as the mutable one). -/
def ModelContainer.beginC (c : ModelContainer) : ContainerIterator :=
  c.beginIt

/-- Modelled from the spec: the const-qualified `end()` overload of the
model variant. -/
def ModelContainer.endC (c : ModelContainer) : ContainerIterator :=
  c.endIt

/-- `NyanContainer::cbegin` (nyan_container.h line 194):
`return this->begin();` — delegates to the const `begin()` overload. -/
def ModelContainer.cbegin (c : ModelContainer) : ContainerIterator :=
  c.beginC

/-- `NyanContainer::cend` (nyan_container.h line 199):
`return this->end();` — delegates to the const `end()` overload. -/
def ModelContainer.cend (c : ModelContainer) : ContainerIterator :=
  c.endC

/-- Modelled from the spec: the model cursor's `advance()` (pure virtual
`operator++` in the source): step to the next index. -/
def advanceCursor (cur : Cursor) : Cursor :=
  { kind := cur.kind, pos := cur.pos + 1 }

/-- Modelled from the spec: the model cursor's `dereference()` (pure virtual
`operator*` in the source): the entity at the current index, `none`
marking the undefined dereference of an end-position cursor. -/
def ModelContainer.deref (c : ModelContainer) (cur : Cursor) : Option Nat :=
  c.elems.get? cur.pos

/-- The canonical iteration loop `for (it = begin; it != end; ++it)`,
fuelled: collects the cursors visited before reaching the end position
(the loop condition is the source's cursor comparison). -/
def iterFrom (c : ModelContainer) : Nat → Cursor → List Cursor
  | 0, _ => []
  | Nat.succ fuel, cur =>
    if iterBaseEq modelSp cur c.endCursor then []
    else cur :: iterFrom c fuel (advanceCursor cur)

/-- The positions visited iterating from `begin()` to `end()`. -/
def ModelContainer.visited (c : ModelContainer) : List Cursor :=
  iterFrom c (c.size + 1) c.beginCursor

/-- Unfolding the iteration loop: with enough fuel, iterating from index `i`
visits exactly the indices `i, i+1, …, length-1`. -/
lemma iterFrom_range (c : ModelContainer) :
    ∀ fuel i, c.elems.length ≤ i + fuel → i ≤ c.elems.length →
      iterFrom c fuel { kind := modelKind, pos := i }
        = (List.range' i (c.elems.length - i)).map
            (fun j => { kind := modelKind, pos := j }) := by
  intro fuel
  induction fuel with
  | zero =>
    intro i h1 h2
    have hi : i = c.elems.length := le_antisymm h2 (by simpa using h1)
    subst hi
    simp [iterFrom]
  | succ fuel ih =>
    intro i h1 h2
    by_cases hi : i = c.elems.length
    · subst hi
      simp [iterFrom, iterBaseEq, modelSp, ModelContainer.endCursor]
    · have hlt : i < c.elems.length := lt_of_le_of_ne h2 hi
      have hcond : iterBaseEq modelSp { kind := modelKind, pos := i } c.endCursor = false := by
        simp [iterBaseEq, modelSp, ModelContainer.endCursor, hi]
      have hsub : c.elems.length - i = (c.elems.length - (i + 1)) + 1 := by omega
      rw [iterFrom, hcond]
      simp only [Bool.false_eq_true, if_false, advanceCursor]
      rw [ih (i + 1) (by omega) (by omega), hsub, List.range'_succ]
      simp

/-- The visited cursors are exactly indices `0, …, length-1` of the model
cursor kind. -/
lemma visited_eq (c : ModelContainer) :
    c.visited = (List.range' 0 c.elems.length).map
      (fun j => { kind := modelKind, pos := j }) := by
  have h := iterFrom_range c (c.size + 1) 0 (by simp [ModelContainer.size]) (Nat.zero_le _)
  simpa [ModelContainer.visited, ModelContainer.beginCursor] using h

/-- C1: for every pair of Iterator Handles that each own a cursor, the
handles are equal iff (a) the two cursors have the identical concrete kind
(runtime type identity) and (b) the per-kind same-position check returns
true; in particular handles whose cursors differ in concrete kind are never
equal.  Hypotheses: the per-kind position comparison is reflexive (it
decides "same logical position"), and equal addresses mean the very same
cursor object (unique ownership). -/
theorem C1_owning_handle_equality (sp : SamePos) (h1 h2 : ContainerIterator)
    (a1 a2 : Nat) (c1 c2 : Cursor)
    (e1 : h1.iter = some (a1, c1)) (e2 : h2.iter = some (a2, c2))
    (hrefl : ∀ k p, sp k p p = true)
    (huniq : a1 = a2 → c1 = c2) :
    (iterEq sp h1 h2 = some true
      ↔ (c1.kind = c2.kind ∧ sp c1.kind c1.pos c2.pos = true))
    ∧ (c1.kind ≠ c2.kind → iterEq sp h1 h2 = some false) := by
  by_cases ha : a1 = a2
  · have hc : c1 = c2 := huniq ha
    subst hc
    subst ha
    refine ⟨?_, fun hk => absurd rfl hk⟩
    simp [iterEq, ptrEq, e1, e2, hrefl]
  · have hab : (a1 == a2) = false := by
      simpa using ha
    constructor
    · simp [iterEq, ptrEq, e1, e2, hab, iterBaseEq]
    · intro hk
      have hkb : (c1.kind == c2.kind) = false := by
        simpa using hk
      simp [iterEq, ptrEq, e1, e2, hab, iterBaseEq, hkb]

/-- Witness for C1 at concrete handles: two distinct handles owning
same-kind cursors at positions 2 and 5. -/
theorem C1_owning_handle_equality_witness :
    (∀ k p, modelSp k p p = true)
    ∧ ((iterEq modelSp { iter := some (0, { kind := 3, pos := 2 }) }
          { iter := some (1, { kind := 3, pos := 5 }) } = some true
        ↔ ((3 : Nat) = 3 ∧ modelSp 3 2 5 = true))
      ∧ ((3 : Nat) ≠ 3 →
          iterEq modelSp { iter := some (0, { kind := 3, pos := 2 }) }
            { iter := some (1, { kind := 3, pos := 5 }) } = some false)) := by
  have hrefl : ∀ k p, modelSp k p p = true := by
    intro k p
    simp [modelSp]
  exact ⟨hrefl,
    C1_owning_handle_equality modelSp _ _ 0 1 { kind := 3, pos := 2 } { kind := 3, pos := 5 }
      rfl rfl hrefl (fun h => absurd h (by decide))⟩

/-- C3 counterexample: the claim says comparing any two handles is safe and
well-defined, in particular when one holds no cursor; but comparing a
handle holding no cursor (null `unique_ptr`) with one owning a cursor
reaches `*this->iter == *other.iter` and dereferences the null pointer —
undefined behavior, modelled as the comparison yielding `none`. -/
theorem C3_counterexample :
    iterEq modelSp { iter := none } { iter := some (0, { kind := 0, pos := 0 }) } = none :=
  rfl

/-- C3 amended: the comparison is well-defined when both handles own
cursors (even of differing concrete kinds) or when both hold no cursor;
two handles holding no cursor compare equal (true); but comparing a handle
holding no cursor with one owning a cursor dereferences a null pointer and
is undefined. -/
theorem C3_amended_comparison_safety (sp : SamePos) (h1 h2 : ContainerIterator) :
    (h1.iter = none → h2.iter = none → iterEq sp h1 h2 = some true)
    ∧ (∀ a1 c1 a2 c2, h1.iter = some (a1, c1) → h2.iter = some (a2, c2) →
        iterEq sp h1 h2 = some ((a1 == a2) || iterBaseEq sp c1 c2))
    ∧ (h1.iter = none → ∀ a c, h2.iter = some (a, c) → iterEq sp h1 h2 = none)
    ∧ (h2.iter = none → ∀ a c, h1.iter = some (a, c) → iterEq sp h1 h2 = none) := by
  refine ⟨?_, ?_, ?_, ?_⟩
  · intro hn1 hn2
    simp [iterEq, ptrEq, hn1, hn2]
  · intro a1 c1 a2 c2 e1 e2
    by_cases ha : a1 = a2
    · subst ha
      simp [iterEq, ptrEq, e1, e2]
    · have hab : (a1 == a2) = false := by
        simpa using ha
      simp [iterEq, ptrEq, e1, e2, hab]
  · intro hn1 a c e2
    simp [iterEq, ptrEq, hn1, e2]
  · intro hn2 a c e1
    simp [iterEq, ptrEq, hn2, e1]

/-- Witness for the amended C3: both empty handles compare equal, and two
owning handles of differing kinds compare well-defined. -/
theorem C3_amended_comparison_safety_witness :
    iterEq modelSp ({ iter := none } : ContainerIterator) { iter := none } = some true
    ∧ iterEq modelSp { iter := some (0, { kind := 0, pos := 1 }) }
        { iter := some (1, { kind := 2, pos := 1 }) }
        = some (((0 : Nat) == 1) || iterBaseEq modelSp { kind := 0, pos := 1 } { kind := 2, pos := 1 }) :=
  ⟨(C3_amended_comparison_safety modelSp _ _).1 rfl rfl,
    (C3_amended_comparison_safety modelSp _ _).2.1 0 { kind := 0, pos := 1 } 1
      { kind := 2, pos := 1 } rfl rfl⟩

/-- C8: the not-equals operation returns exactly the logical negation of
the equality operation (wherever the latter is defined; `operator!=` is
literally `not (*this == other)`). -/
theorem C8_ne_negates_eq (sp : SamePos) (h1 h2 : ContainerIterator) (b : Bool)
    (h : iterEq sp h1 h2 = some b) :
    iterNe sp h1 h2 = some (!b) := by
  simp [iterNe, h]

/-- Witness for C8: two empty handles compare equal, so not-equals yields
false. -/
theorem C8_ne_negates_eq_witness :
    iterEq modelSp ({ iter := none } : ContainerIterator) { iter := none } = some true
    ∧ iterNe modelSp ({ iter := none } : ContainerIterator) { iter := none } = some false :=
  ⟨rfl, C8_ne_negates_eq modelSp _ _ true rfl⟩

/-- C9: move-constructing a handle from one that owns a cursor transfers
the very same cursor instance (same address, no clone) and leaves the
source holding no cursor. -/
theorem C9_move_transfers_cursor (h : ContainerIterator) (a : Nat) (cur : Cursor)
    (he : h.iter = some (a, cur)) :
    (moveCtor h).1.iter = some (a, cur) ∧ (moveCtor h).2.iter = none := by
  simp [moveCtor, he]

/-- Witness for C9 at a concrete owning handle. -/
theorem C9_move_transfers_cursor_witness :
    (moveCtor { iter := some (4, { kind := 1, pos := 2 }) }).1.iter
        = some (4, { kind := 1, pos := 2 })
    ∧ (moveCtor { iter := some (4, { kind := 1, pos := 2 }) }).2.iter = none :=
  C9_move_transfers_cursor _ 4 { kind := 1, pos := 2 } rfl

/-- C4: if `add(e)` returns true then `contains(e)` is subsequently true
and `size()` has increased by exactly 1; if it returns false then `size()`
is unchanged (stated for the spec-modelled container variant). -/
theorem C4_add_postcondition (c : ModelContainer) (e : Nat) :
    ((c.add e).1 = true →
      (c.add e).2.contains e = true ∧ (c.add e).2.size = c.size + 1)
    ∧ ((c.add e).1 = false → (c.add e).2.size = c.size) := by
  by_cases h : e ∈ c.elems
  · simp [ModelContainer.add, h]
  · simp [ModelContainer.add, h, ModelContainer.contains, ModelContainer.size]

/-- Witness for C4: adding entity 0 to the empty container succeeds. -/
theorem C4_add_postcondition_witness :
    (({ elems := [] } : ModelContainer).add 0).1 = true
    ∧ ((({ elems := [] } : ModelContainer).add 0).2.contains 0 = true
      ∧ (({ elems := [] } : ModelContainer).add 0).2.size
          = ({ elems := [] } : ModelContainer).size + 1) :=
  ⟨rfl, (C4_add_postcondition { elems := [] } 0).1 rfl⟩

/-- C5: `size()` equals the number of distinct positions visited iterating
from `begin()` to `end()`, and the entities dereferenced at those positions
are exactly the set of entities contained in the container (stated for the
spec-modelled container variant). -/
theorem C5_iteration_exhausts_container (c : ModelContainer) :
    c.visited.length = c.size
    ∧ c.visited.Nodup
    ∧ ∀ e : Nat, (∃ cur ∈ c.visited, c.deref cur = some e) ↔ c.contains e = true := by
  refine ⟨?_, ?_, ?_⟩
  · rw [visited_eq]
    simp [ModelContainer.size]
  · rw [visited_eq]
    exact (List.nodup_range' 0 _).map fun a b hab => by simpa using hab
  · intro e
    rw [visited_eq]
    constructor
    · rintro ⟨cur, hmem, hder⟩
      rcases List.mem_map.mp hmem with ⟨j, _, rfl⟩
      have : e ∈ c.elems := List.mem_iff_get?.mpr ⟨j, hder⟩
      simpa [ModelContainer.contains] using this
    · intro hcon
      have hm : e ∈ c.elems := by
        simpa [ModelContainer.contains] using hcon
      rcases List.mem_iff_get?.mp hm with ⟨j, hj⟩
      have hjlt : j < c.elems.length := (List.get?_eq_some.mp hj).1
      refine ⟨{ kind := modelKind, pos := j }, ?_, hj⟩
      exact List.mem_map.mpr ⟨j, by simpa using hjlt, rfl⟩

/-- Witness for C5 at a concrete two-element container. -/
theorem C5_iteration_exhausts_container_witness :
    (({ elems := [3, 5] } : ModelContainer).visited.length
        = ({ elems := [3, 5] } : ModelContainer).size)
    ∧ ((∃ cur ∈ ({ elems := [3, 5] } : ModelContainer).visited,
          ({ elems := [3, 5] } : ModelContainer).deref cur = some 5)
        ↔ ({ elems := [3, 5] } : ModelContainer).contains 5 = true) :=
  ⟨(C5_iteration_exhausts_container { elems := [3, 5] }).1,
    (C5_iteration_exhausts_container { elems := [3, 5] }).2.2 5⟩

/-- C6: the Iterator Handles returned by `begin()` and `end()` compare
equal iff `size()` is 0 (stated for the spec-modelled container variant;
the comparison is the source's `ContainerIterator::operator==`). -/
theorem C6_begin_eq_end_iff_empty (c : ModelContainer) :
    iterEq modelSp c.beginIt c.endIt = some true ↔ c.size = 0 := by
  simp only [iterEq, ptrEq, ModelContainer.beginIt, ModelContainer.endIt,
    ModelContainer.beginCursor, ModelContainer.endCursor, ModelContainer.size]
  norm_num [iterBaseEq, modelSp]
  rw [eq_comm, List.length_eq_zero]

/-- Witness for C6 at the empty and a singleton container. -/
theorem C6_begin_eq_end_iff_empty_witness :
    (iterEq modelSp ({ elems := [] } : ModelContainer).beginIt
        ({ elems := [] } : ModelContainer).endIt = some true
      ↔ ({ elems := [] } : ModelContainer).size = 0)
    ∧ (iterEq modelSp ({ elems := [9] } : ModelContainer).beginIt
        ({ elems := [9] } : ModelContainer).endIt = some true
      ↔ ({ elems := [9] } : ModelContainer).size = 0) :=
  ⟨C6_begin_eq_end_iff_empty { elems := [] },
    C6_begin_eq_end_iff_empty { elems := [9] }⟩

/-- C7: removing an absent entity returns false and leaves the container
unchanged (a no-op, not an error); removing a present entity removes one
entity equal to it and returns true (stated for the spec-modelled container
variant). -/
theorem C7_remove_semantics (c : ModelContainer) (e : Nat) :
    (c.contains e = false → (c.remove e).1 = false ∧ (c.remove e).2 = c)
    ∧ (c.contains e = true →
        (c.remove e).1 = true
        ∧ (c.remove e).2.elems = c.elems.erase e
        ∧ (c.remove e).2.size + 1 = c.size) := by
  by_cases hm : e ∈ c.elems
  · have hlen : (c.elems.erase e).length + 1 = c.elems.length := by
      rw [List.length_erase_of_mem hm]
      exact Nat.succ_pred_eq_of_pos (List.length_pos.mpr (List.ne_nil_of_mem hm))
    have hpos : 0 < c.elems.length := List.length_pos.mpr (List.ne_nil_of_mem hm)
    simp [ModelContainer.remove, ModelContainer.contains, ModelContainer.size, hm, hlen]
    omega
  · simp [ModelContainer.remove, ModelContainer.contains, hm]

/-- Witness for C7: removing from {3} the absent 4 (no-op) and the present
3 (one removal). -/
theorem C7_remove_semantics_witness :
    ((({ elems := [3] } : ModelContainer).remove 4).1 = false
      ∧ (({ elems := [3] } : ModelContainer).remove 4).2 = { elems := [3] })
    ∧ ((({ elems := [3] } : ModelContainer).remove 3).1 = true
      ∧ (({ elems := [3] } : ModelContainer).remove 3).2.elems = [3].erase 3
      ∧ (({ elems := [3] } : ModelContainer).remove 3).2.size + 1
          = ({ elems := [3] } : ModelContainer).size) :=
  ⟨(C7_remove_semantics { elems := [3] } 4).1 rfl,
    (C7_remove_semantics { elems := [3] } 3).2 rfl⟩

/-- C10: `cbegin()` returns the same Iterator Handle position as the
const-qualified `begin()` overload, and `cend()` the same as the
const-qualified `end()` overload (the source delegates directly; the
handles also compare equal under the source's `operator==`). -/
theorem C10_cbegin_cend_delegate (c : ModelContainer) :
    c.cbegin = c.beginC ∧ c.cend = c.endC
    ∧ iterEq modelSp c.cbegin c.beginC = some true
    ∧ iterEq modelSp c.cend c.endC = some true :=
  ⟨rfl, rfl, rfl, rfl⟩

end Nyan
